import Mathlib

/-!
# wg-wrapper: the setuid-root dispatcher of `bin/utils/code/wg-wrapper.c`

A shallow embedding of `main` and the properties of its behaviour.

The program is a straight-line sequence of system calls and writes to the
error stream.  A run is modelled by the ordered trace of what it did (the
elements of `argv` it evaluated, the system calls it made, the calls that
wrote to `stderr`) together with the way it ended: `main` returned a status,
or the process image was replaced by a successful `execl`.

Everything outside the program is a parameter (`Sys`): what each system call
returns and the value it leaves in `errno`, whether `execl` replaces the
image, the text of `strerror`, and the text the C library prints for a null
pointer under `%s`.
-/

namespace WgWrapper

/-- What a system call hands back: its return value and the `errno` left behind. -/
structure SysRet where
  ret : Int
  errno : Nat
  deriving DecidableEq, Repr

/-- The environment of one run of the program. -/
structure Sys where
  /-- Result of `setgroups(n, list)`; `setgroups(0, NULL)` is the call on the empty list. -/
  setgroups : List Nat → SysRet
  /-- Result of `setgid(gid)`. -/
  setgid : Nat → SysRet
  /-- Result of `setuid(uid)`. -/
  setuid : Nat → SysRet
  /-- Result of `execl(path, arg0, ..., NULL)`: `none` when the process image is replaced
  (the call does not return), `some e` when it returns `-1` with `errno = e`. -/
  execl : String → List String → Option Nat
  /-- Message text of `strerror(errno)`, as printed by `perror`. -/
  strerror : Nat → String
  /-- Text the C library prints for a null pointer under `%s` (`(null)` on the usual ones). -/
  nullStr : String

/-- One observable step of a run, in program order. -/
inductive Event where
  /-- Evaluation of `argv[i]`. -/
  | argv (i : Nat)
  /-- The call `setgroups(n, list)` with the given list of `n` group ids. -/
  | setgroups (gids : List Nat)
  /-- The call `setgid(gid)`. -/
  | setgid (gid : Nat)
  /-- The call `setuid(uid)`. -/
  | setuid (uid : Nat)
  /-- The call `execl(path, arg0, ..., NULL)` with argument vector `args`. -/
  | execl (path : String) (args : List String)
  /-- One `fprintf(stderr, ...)` call that wrote `text`. -/
  | fprintf (text : String)
  /-- One `perror(s)` call made while `errno` had the given value. -/
  | perror (s : String) (errno : Nat)
  deriving DecidableEq, Repr

/-- How a run ends. -/
inductive Outcome where
  /-- Function `main` returned this status, which becomes the exit status of the process. -/
  | returned (status : Int)
  /-- A successful `execl` replaced the process image: nothing of `main` runs afterwards. -/
  | replaced
  deriving DecidableEq, Repr

/-- A run: what happened, in order, and how it ended. -/
structure Run where
  trace : List Event
  outcome : Outcome
  deriving DecidableEq, Repr

/-- The run `r` preceded by the events `pre`. -/
def Run.after (pre : List Event) (r : Run) : Run :=
  { trace := pre ++ r.trace, outcome := r.outcome }

/-- Constant `MAX_ARGS` (line 8): declared, referenced nowhere in the program. -/
def MAX_ARGS : Nat := 10

/-- Constant `MAX_ARG_LEN` (line 9): declared, referenced nowhere in the program. -/
def MAX_ARG_LEN : Nat := 256

/-- Comparison of two character sequences as `strcmp` does it: position by position up to
the first difference, the end of a sequence (its terminator) ordered before any character. -/
def strcmpChars : List Char → List Char → Int
  | [], [] => 0
  | [], _ :: _ => -1
  | _ :: _, [] => 1
  | a :: s, b :: t => if a = b then strcmpChars s t else if a.toNat < b.toNat then -1 else 1

/-- Function `strcmp` of the C library on two strings: zero exactly when they are equal,
negative or positive by the order at the first difference.  A C string holds no NUL, so a
string here stands for the characters before the terminator. -/
def strcmp (a b : String) : Int :=
  strcmpChars a.data b.data

/-- Conversion `%s` of `fprintf` applied to a `char *`: the string, or the library's
text for a null pointer. -/
def fmtS (sys : Sys) : Option String → String
  | some s => s
  | none => sys.nullStr

/-- An `execl` call followed by the end of `main` (lines 65-67): when the call replaces the
process image nothing follows; when it returns, `perror("execl")` and `return 1`. -/
def execlOrFail (sys : Sys) (path : String) (args : List String) : Run :=
  match sys.execl path args with
  | none => { trace := [.execl path args], outcome := .replaced }
  | some e => { trace := [.execl path args, .perror "execl" e], outcome := .returned 1 }

/-- Lines 34-67 of `main`: validation of the subcommand and its arity, then `execl`.
It runs only past the `argc < 2` check, so `argv[1]` exists. -/
def dispatch (sys : Sys) (argv : List String) (h : 2 ≤ argv.length) : Run :=
  if strcmp argv[1] "wg-show" = 0 then
    if argv.length = 2 then
      (execlOrFail sys "/opt/homebrew/bin/wg" ["wg", "show"]).after [.argv 1]
    else if h3 : argv.length = 3 then
      (execlOrFail sys "/opt/homebrew/bin/wg" ["wg", "show", argv[2]]).after [.argv 1, .argv 2]
    else
      { trace := [.argv 1, .fprintf "Invalid arguments for wg-show\n"], outcome := .returned 1 }
  else if strcmp argv[1] "wg-quick-up" = 0 then
    if h3 : argv.length ≠ 3 then
      { trace := [.argv 1, .argv 1, .argv 0,
                  .fprintf ("Usage: " ++ fmtS sys argv[0]? ++ " wg-quick-up <interface>\n")],
        outcome := .returned 1 }
    else
      (execlOrFail sys "/opt/homebrew/bin/wg-quick" ["wg-quick", "up", argv[2]]).after
        [.argv 1, .argv 1, .argv 2]
  else if strcmp argv[1] "wg-quick-down" = 0 then
    if h3 : argv.length ≠ 3 then
      { trace := [.argv 1, .argv 1, .argv 1, .argv 0,
                  .fprintf ("Usage: " ++ fmtS sys argv[0]? ++ " wg-quick-down <interface>\n")],
        outcome := .returned 1 }
    else
      (execlOrFail sys "/opt/homebrew/bin/wg-quick" ["wg-quick", "down", argv[2]]).after
        [.argv 1, .argv 1, .argv 1, .argv 2]
  else
    { trace := [.argv 1, .argv 1, .argv 1, .argv 1,
                .fprintf ("Unknown command: " ++ argv[1] ++ "\n"),
                .fprintf "Valid commands: wg-show, wg-quick-up, wg-quick-down\n"],
      outcome := .returned 1 }

/-- Function `main(argc, argv)`: `argc` is the length of `argv`, and `argv[argc]` is the
null pointer. -/
def main (sys : Sys) (argv : List String) : Run :=
  if h : argv.length < 2 then
    { trace := [.argv 0,
                .fprintf ("Usage: " ++ fmtS sys argv[0]? ++ " <command> [args...]\n"),
                .fprintf "Commands: wg-show, wg-quick-up, wg-quick-down\n"],
      outcome := .returned 1 }
  else if (sys.setgroups []).ret ≠ 0 then
    { trace := [.setgroups [], .perror "setgroups" (sys.setgroups []).errno],
      outcome := .returned 1 }
  else if (sys.setgid 0).ret ≠ 0 then
    { trace := [.setgroups [], .setgid 0, .perror "setgid" (sys.setgid 0).errno],
      outcome := .returned 1 }
  else if (sys.setuid 0).ret ≠ 0 then
    { trace := [.setgroups [], .setgid 0, .setuid 0, .perror "setuid" (sys.setuid 0).errno],
      outcome := .returned 1 }
  else
    (dispatch sys argv (by omega)).after [.setgroups [], .setgid 0, .setuid 0]

/-! ### Observations on a run -/

/-- The `execl` call of an event: executable path and argument vector. -/
def Event.exec? : Event → Option (String × List String)
  | .execl p a => some (p, a)
  | _ => none

/-- The `execl` calls of a trace, in order. -/
def execs (t : List Event) : List (String × List String) :=
  t.filterMap Event.exec?

/-- Whether an event is a system call (`setgroups`, `setgid`, `setuid`, `execl`). -/
def Event.isSysCall : Event → Bool
  | .setgroups _ => true
  | .setgid _ => true
  | .setuid _ => true
  | .execl _ _ => true
  | _ => false

/-- The system calls of a trace, in order. -/
def sysCalls (t : List Event) : List Event :=
  t.filter Event.isSysCall

/-- Text an event writes to `stderr`: what `fprintf` formatted, or for `perror(s)` the
line `s: strerror(errno)`. -/
def Event.stderrText (sys : Sys) : Event → Option String
  | .fprintf text => some text
  | .perror s e => some (s ++ ": " ++ sys.strerror e ++ "\n")
  | _ => none

/-- Everything a trace writes to `stderr`, one entry per writing call, in order. -/
def errOut (sys : Sys) (t : List Event) : List String :=
  t.filterMap (Event.stderrText sys)

/-- The index of `argv` an event reads. -/
def Event.read? : Event → Option Nat
  | .argv i => some i
  | _ => none

/-- The indices of `argv` a trace reads, in order. -/
def reads (t : List Event) : List Nat :=
  t.filterMap Event.read?

/-- The three identity calls of lines 19-32 succeed (each returns 0). -/
def identityOk (sys : Sys) : Prop :=
  (sys.setgroups []).ret = 0 ∧ (sys.setgid 0).ret = 0 ∧ (sys.setuid 0).ret = 0

instance (sys : Sys) : Decidable (identityOk sys) := by
  unfold identityOk
  infer_instance

/-- The subcommand names `argv[1]` is compared with (lines 35, 45 and 52). -/
def commands : List String := ["wg-show", "wg-quick-up", "wg-quick-down"]

/-- An environment where every call succeeds and `execl` replaces the process image. -/
def sysOk : Sys :=
  { setgroups := fun _ => ⟨0, 0⟩, setgid := fun _ => ⟨0, 0⟩, setuid := fun _ => ⟨0, 0⟩,
    execl := fun _ _ => none, strerror := fun _ => "Unknown error", nullStr := "(null)" }

/-- An environment where the identity calls succeed and `execl` fails with `ENOENT`. -/
def sysNoTool : Sys :=
  { sysOk with execl := fun _ _ => some 2,
               strerror := fun e => if e = 2 then "No such file or directory" else "Unknown error" }

/-- An unprivileged environment: `setgroups`, `setgid(0)` and `setuid(0)` fail with `EPERM`. -/
def sysNoPriv : Sys :=
  { setgroups := fun _ => ⟨-1, 1⟩, setgid := fun _ => ⟨-1, 1⟩, setuid := fun _ => ⟨-1, 1⟩,
    execl := fun _ _ => none,
    strerror := fun e => if e = 1 then "Operation not permitted" else "Unknown error",
    nullStr := "(null)" }

/-- An environment where only `setgid(0)` fails, with `EPERM`. -/
def sysNoGid : Sys :=
  { sysNoPriv with setgroups := fun _ => ⟨0, 0⟩ }

/-- An environment where only `setuid(0)` fails, with `EPERM`. -/
def sysNoUid : Sys :=
  { sysNoGid with setgid := fun _ => ⟨0, 0⟩ }

theorem strcmpChars_eq_zero_iff (s t : List Char) : strcmpChars s t = 0 ↔ s = t := by
  induction s generalizing t with
  | nil => cases t <;> simp [strcmpChars]
  | cons a s ih =>
    cases t with
    | nil => simp [strcmpChars]
    | cons b t =>
      by_cases hab : a = b
      · simp [strcmpChars, hab, ih]
      · simp only [strcmpChars, if_neg hab]
        split_ifs <;> simp [hab]

theorem strcmp_eq_zero_iff (a b : String) : strcmp a b = 0 ↔ a = b := by
  unfold strcmp
  rw [strcmpChars_eq_zero_iff]
  exact ⟨fun h => String.ext h, fun h => by rw [h]⟩

/-! ### The branches of `main`, one equation each -/

theorem main_short (sys : Sys) (argv : List String) (h : argv.length < 2) :
    main sys argv =
      { trace := [.argv 0,
                  .fprintf ("Usage: " ++ fmtS sys argv[0]? ++ " <command> [args...]\n"),
                  .fprintf "Commands: wg-show, wg-quick-up, wg-quick-down\n"],
        outcome := .returned 1 } := by
  unfold main
  rw [dif_pos h]

theorem main_setgroups_fail (sys : Sys) (argv : List String) (h : 2 ≤ argv.length)
    (h1 : (sys.setgroups []).ret ≠ 0) :
    main sys argv =
      { trace := [.setgroups [], .perror "setgroups" (sys.setgroups []).errno],
        outcome := .returned 1 } := by
  unfold main
  rw [dif_neg (by omega), if_pos h1]

theorem main_setgid_fail (sys : Sys) (argv : List String) (h : 2 ≤ argv.length)
    (h1 : (sys.setgroups []).ret = 0) (h2 : (sys.setgid 0).ret ≠ 0) :
    main sys argv =
      { trace := [.setgroups [], .setgid 0, .perror "setgid" (sys.setgid 0).errno],
        outcome := .returned 1 } := by
  unfold main
  rw [dif_neg (by omega), if_neg (by simp [h1]), if_pos h2]

theorem main_setuid_fail (sys : Sys) (argv : List String) (h : 2 ≤ argv.length)
    (h1 : (sys.setgroups []).ret = 0) (h2 : (sys.setgid 0).ret = 0)
    (h3 : (sys.setuid 0).ret ≠ 0) :
    main sys argv =
      { trace := [.setgroups [], .setgid 0, .setuid 0, .perror "setuid" (sys.setuid 0).errno],
        outcome := .returned 1 } := by
  unfold main
  rw [dif_neg (by omega), if_neg (by simp [h1]), if_neg (by simp [h2]), if_pos h3]

theorem main_dispatch (sys : Sys) (argv : List String) (h : 2 ≤ argv.length)
    (h1 : (sys.setgroups []).ret = 0) (h2 : (sys.setgid 0).ret = 0)
    (h3 : (sys.setuid 0).ret = 0) :
    main sys argv = (dispatch sys argv h).after [.setgroups [], .setgid 0, .setuid 0] := by
  unfold main
  rw [dif_neg (by omega), if_neg (by simp [h1]), if_neg (by simp [h2]), if_neg (by simp [h3])]

/-! ### The branches of `dispatch`, one equation each -/

theorem dispatch_show2 (sys : Sys) (argv : List String) (h : 2 ≤ argv.length)
    (h1 : argv[1]? = some "wg-show") (hc : argv.length = 2) :
    dispatch sys argv h =
      (execlOrFail sys "/opt/homebrew/bin/wg" ["wg", "show"]).after [.argv 1] := by
  rcases argv with _ | ⟨a0, _ | ⟨a1, rest⟩⟩
  · simp at h
  · simp at h
  · simp at h1
    subst h1
    simp at hc
    simp [dispatch, strcmp_eq_zero_iff, hc]

theorem dispatch_show3 (sys : Sys) (argv : List String) (h : 2 ≤ argv.length)
    (h1 : argv[1]? = some "wg-show") (hc : argv.length = 3) (a2 : String)
    (h2 : argv[2]? = some a2) :
    dispatch sys argv h =
      (execlOrFail sys "/opt/homebrew/bin/wg" ["wg", "show", a2]).after [.argv 1, .argv 2] := by
  rcases argv with _ | ⟨a0, _ | ⟨a1, _ | ⟨b, rest⟩⟩⟩
  · simp at h
  · simp at h
  · simp at hc
  · simp at h1 h2
    subst h1 h2
    simp [dispatch, strcmp_eq_zero_iff, hc]

theorem dispatch_show_bad (sys : Sys) (argv : List String) (h : 2 ≤ argv.length)
    (h1 : argv[1]? = some "wg-show") (hc2 : argv.length ≠ 2) (hc3 : argv.length ≠ 3) :
    dispatch sys argv h =
      { trace := [.argv 1, .fprintf "Invalid arguments for wg-show\n"],
        outcome := .returned 1 } := by
  rcases argv with _ | ⟨a0, _ | ⟨a1, rest⟩⟩
  · simp at h
  · simp at h
  · simp at h1
    subst h1
    simp at hc2 hc3
    simp [dispatch, strcmp_eq_zero_iff, hc2, hc3]

theorem dispatch_up (sys : Sys) (argv : List String) (h : 2 ≤ argv.length)
    (h1 : argv[1]? = some "wg-quick-up") (hc : argv.length = 3) (a2 : String)
    (h2 : argv[2]? = some a2) :
    dispatch sys argv h =
      (execlOrFail sys "/opt/homebrew/bin/wg-quick" ["wg-quick", "up", a2]).after
        [.argv 1, .argv 1, .argv 2] := by
  rcases argv with _ | ⟨a0, _ | ⟨a1, _ | ⟨b, rest⟩⟩⟩
  · simp at h
  · simp at h
  · simp at hc
  · simp at h1 h2
    subst h1 h2
    simp [dispatch, strcmp_eq_zero_iff, hc]

theorem dispatch_up_bad (sys : Sys) (argv : List String) (h : 2 ≤ argv.length)
    (h1 : argv[1]? = some "wg-quick-up") (hc : argv.length ≠ 3) :
    dispatch sys argv h =
      { trace := [.argv 1, .argv 1, .argv 0,
                  .fprintf ("Usage: " ++ fmtS sys argv[0]? ++ " wg-quick-up <interface>\n")],
        outcome := .returned 1 } := by
  rcases argv with _ | ⟨a0, _ | ⟨a1, rest⟩⟩
  · simp at h
  · simp at h
  · simp at h1
    subst h1
    simp at hc
    simp [dispatch, strcmp_eq_zero_iff, hc]

theorem dispatch_down (sys : Sys) (argv : List String) (h : 2 ≤ argv.length)
    (h1 : argv[1]? = some "wg-quick-down") (hc : argv.length = 3) (a2 : String)
    (h2 : argv[2]? = some a2) :
    dispatch sys argv h =
      (execlOrFail sys "/opt/homebrew/bin/wg-quick" ["wg-quick", "down", a2]).after
        [.argv 1, .argv 1, .argv 1, .argv 2] := by
  rcases argv with _ | ⟨a0, _ | ⟨a1, _ | ⟨b, rest⟩⟩⟩
  · simp at h
  · simp at h
  · simp at hc
  · simp at h1 h2
    subst h1 h2
    simp [dispatch, strcmp_eq_zero_iff, hc]

theorem dispatch_down_bad (sys : Sys) (argv : List String) (h : 2 ≤ argv.length)
    (h1 : argv[1]? = some "wg-quick-down") (hc : argv.length ≠ 3) :
    dispatch sys argv h =
      { trace := [.argv 1, .argv 1, .argv 1, .argv 0,
                  .fprintf ("Usage: " ++ fmtS sys argv[0]? ++ " wg-quick-down <interface>\n")],
        outcome := .returned 1 } := by
  rcases argv with _ | ⟨a0, _ | ⟨a1, rest⟩⟩
  · simp at h
  · simp at h
  · simp at h1
    subst h1
    simp at hc
    simp [dispatch, strcmp_eq_zero_iff, hc]

theorem dispatch_unknown (sys : Sys) (argv : List String) (h : 2 ≤ argv.length)
    (a1 : String) (h1 : argv[1]? = some a1) (hs : a1 ≠ "wg-show")
    (hu : a1 ≠ "wg-quick-up") (hd : a1 ≠ "wg-quick-down") :
    dispatch sys argv h =
      { trace := [.argv 1, .argv 1, .argv 1, .argv 1,
                  .fprintf ("Unknown command: " ++ a1 ++ "\n"),
                  .fprintf "Valid commands: wg-show, wg-quick-up, wg-quick-down\n"],
        outcome := .returned 1 } := by
  rcases argv with _ | ⟨a0, _ | ⟨b, rest⟩⟩
  · simp at h
  · simp at h
  · simp at h1
    subst h1
    simp [dispatch, strcmp_eq_zero_iff, hs, hu, hd]

/-- Every run of `main` is one of its twelve branches. -/
theorem main_cases (sys : Sys) (argv : List String) :
    (argv.length < 2 ∧ main sys argv =
      { trace := [.argv 0,
                  .fprintf ("Usage: " ++ fmtS sys argv[0]? ++ " <command> [args...]\n"),
                  .fprintf "Commands: wg-show, wg-quick-up, wg-quick-down\n"],
        outcome := .returned 1 }) ∨
    (2 ≤ argv.length ∧ (sys.setgroups []).ret ≠ 0 ∧ main sys argv =
      { trace := [.setgroups [], .perror "setgroups" (sys.setgroups []).errno],
        outcome := .returned 1 }) ∨
    (2 ≤ argv.length ∧ (sys.setgroups []).ret = 0 ∧ (sys.setgid 0).ret ≠ 0 ∧ main sys argv =
      { trace := [.setgroups [], .setgid 0, .perror "setgid" (sys.setgid 0).errno],
        outcome := .returned 1 }) ∨
    (2 ≤ argv.length ∧ (sys.setgroups []).ret = 0 ∧ (sys.setgid 0).ret = 0 ∧
      (sys.setuid 0).ret ≠ 0 ∧ main sys argv =
      { trace := [.setgroups [], .setgid 0, .setuid 0, .perror "setuid" (sys.setuid 0).errno],
        outcome := .returned 1 }) ∨
    (identityOk sys ∧ ∃ a0 a1 : String, argv[0]? = some a0 ∧ argv[1]? = some a1 ∧
      ((a1 = "wg-show" ∧ argv.length = 2 ∧ main sys argv =
          (execlOrFail sys "/opt/homebrew/bin/wg" ["wg", "show"]).after
            [.setgroups [], .setgid 0, .setuid 0, .argv 1]) ∨
       (a1 = "wg-show" ∧ argv.length = 3 ∧ ∃ a2, argv[2]? = some a2 ∧ main sys argv =
          (execlOrFail sys "/opt/homebrew/bin/wg" ["wg", "show", a2]).after
            [.setgroups [], .setgid 0, .setuid 0, .argv 1, .argv 2]) ∨
       (a1 = "wg-show" ∧ 4 ≤ argv.length ∧ main sys argv =
          { trace := [.setgroups [], .setgid 0, .setuid 0, .argv 1,
                      .fprintf "Invalid arguments for wg-show\n"],
            outcome := .returned 1 }) ∨
       (a1 = "wg-quick-up" ∧ argv.length = 3 ∧ ∃ a2, argv[2]? = some a2 ∧ main sys argv =
          (execlOrFail sys "/opt/homebrew/bin/wg-quick" ["wg-quick", "up", a2]).after
            [.setgroups [], .setgid 0, .setuid 0, .argv 1, .argv 1, .argv 2]) ∨
       (a1 = "wg-quick-up" ∧ 2 ≤ argv.length ∧ argv.length ≠ 3 ∧ main sys argv =
          { trace := [.setgroups [], .setgid 0, .setuid 0, .argv 1, .argv 1, .argv 0,
                      .fprintf ("Usage: " ++ a0 ++ " wg-quick-up <interface>\n")],
            outcome := .returned 1 }) ∨
       (a1 = "wg-quick-down" ∧ argv.length = 3 ∧ ∃ a2, argv[2]? = some a2 ∧ main sys argv =
          (execlOrFail sys "/opt/homebrew/bin/wg-quick" ["wg-quick", "down", a2]).after
            [.setgroups [], .setgid 0, .setuid 0, .argv 1, .argv 1, .argv 1, .argv 2]) ∨
       (a1 = "wg-quick-down" ∧ 2 ≤ argv.length ∧ argv.length ≠ 3 ∧ main sys argv =
          { trace := [.setgroups [], .setgid 0, .setuid 0, .argv 1, .argv 1, .argv 1, .argv 0,
                      .fprintf ("Usage: " ++ a0 ++ " wg-quick-down <interface>\n")],
            outcome := .returned 1 }) ∨
       (a1 ≠ "wg-show" ∧ a1 ≠ "wg-quick-up" ∧ a1 ≠ "wg-quick-down" ∧ 2 ≤ argv.length ∧
        main sys argv =
          { trace := [.setgroups [], .setgid 0, .setuid 0, .argv 1, .argv 1, .argv 1, .argv 1,
                      .fprintf ("Unknown command: " ++ a1 ++ "\n"),
                      .fprintf "Valid commands: wg-show, wg-quick-up, wg-quick-down\n"],
            outcome := .returned 1 }))) := by
  by_cases hl : argv.length < 2
  · exact Or.inl ⟨hl, main_short sys argv hl⟩
  have h2 : 2 ≤ argv.length := by omega
  by_cases h1 : (sys.setgroups []).ret = 0
  swap
  · exact Or.inr (Or.inl ⟨h2, h1, main_setgroups_fail sys argv h2 h1⟩)
  by_cases hg : (sys.setgid 0).ret = 0
  swap
  · exact Or.inr (Or.inr (Or.inl ⟨h2, h1, hg, main_setgid_fail sys argv h2 h1 hg⟩))
  by_cases hu : (sys.setuid 0).ret = 0
  swap
  · exact Or.inr (Or.inr (Or.inr (Or.inl ⟨h2, h1, hg, hu, main_setuid_fail sys argv h2 h1 hg hu⟩)))
  refine Or.inr (Or.inr (Or.inr (Or.inr ⟨⟨h1, hg, hu⟩, argv[0], argv[1], ?_, ?_, ?_⟩)))
  · exact List.getElem?_eq_getElem _
  · exact List.getElem?_eq_getElem _
  have e1 : argv[1]? = some argv[1] := List.getElem?_eq_getElem _
  have e0 : argv[0]? = some argv[0] := List.getElem?_eq_getElem _
  rw [main_dispatch sys argv h2 h1 hg hu]
  by_cases hs : argv[1] = "wg-show"
  · rw [hs] at e1
    by_cases c2 : argv.length = 2
    · exact Or.inl ⟨hs, c2, by rw [dispatch_show2 sys argv h2 e1 c2]; rfl⟩
    by_cases c3 : argv.length = 3
    · refine Or.inr (Or.inl ⟨hs, c3, argv[2], List.getElem?_eq_getElem _, ?_⟩)
      rw [dispatch_show3 sys argv h2 e1 c3 argv[2] (List.getElem?_eq_getElem _)]; rfl
    · refine Or.inr (Or.inr (Or.inl ⟨hs, by omega, ?_⟩))
      rw [dispatch_show_bad sys argv h2 e1 c2 c3]; rfl
  by_cases hup : argv[1] = "wg-quick-up"
  · rw [hup] at e1
    by_cases c3 : argv.length = 3
    · refine Or.inr (Or.inr (Or.inr (Or.inl
        ⟨hup, c3, argv[2], List.getElem?_eq_getElem _, ?_⟩)))
      rw [dispatch_up sys argv h2 e1 c3 argv[2] (List.getElem?_eq_getElem _)]; rfl
    · refine Or.inr (Or.inr (Or.inr (Or.inr (Or.inl ⟨hup, h2, c3, ?_⟩))))
      rw [dispatch_up_bad sys argv h2 e1 c3, e0]; rfl
  by_cases hdn : argv[1] = "wg-quick-down"
  · rw [hdn] at e1
    by_cases c3 : argv.length = 3
    · refine Or.inr (Or.inr (Or.inr (Or.inr (Or.inr (Or.inl
        ⟨hdn, c3, argv[2], List.getElem?_eq_getElem _, ?_⟩)))))
      rw [dispatch_down sys argv h2 e1 c3 argv[2] (List.getElem?_eq_getElem _)]; rfl
    · refine Or.inr (Or.inr (Or.inr (Or.inr (Or.inr (Or.inr (Or.inl ⟨hdn, h2, c3, ?_⟩))))))
      rw [dispatch_down_bad sys argv h2 e1 c3, e0]; rfl
  · refine Or.inr (Or.inr (Or.inr (Or.inr (Or.inr (Or.inr (Or.inr ⟨hs, hup, hdn, h2, ?_⟩))))))
    rw [dispatch_unknown sys argv h2 argv[1] e1 hs hup hdn]; rfl

/-! ### Observations on the end of a run that reaches `execl` -/

theorem trace_after (pre : List Event) (r : Run) : (r.after pre).trace = pre ++ r.trace := rfl

theorem outcome_after (pre : List Event) (r : Run) : (r.after pre).outcome = r.outcome := rfl

theorem execs_append (s t : List Event) : execs (s ++ t) = execs s ++ execs t := by
  simp [execs]

theorem sysCalls_append (s t : List Event) : sysCalls (s ++ t) = sysCalls s ++ sysCalls t := by
  simp [sysCalls]

theorem errOut_append (sys : Sys) (s t : List Event) :
    errOut sys (s ++ t) = errOut sys s ++ errOut sys t := by
  simp [errOut]

theorem execs_execlOrFail (sys : Sys) (p : String) (a : List String) :
    execs (execlOrFail sys p a).trace = [(p, a)] := by
  unfold execlOrFail
  split <;> simp [execs, Event.exec?]

theorem sysCalls_execlOrFail (sys : Sys) (p : String) (a : List String) :
    sysCalls (execlOrFail sys p a).trace = [.execl p a] := by
  unfold execlOrFail
  split <;> simp [sysCalls, Event.isSysCall]

theorem outcome_execlOrFail (sys : Sys) (p : String) (a : List String) :
    (execlOrFail sys p a).outcome =
      if sys.execl p a = none then .replaced else .returned 1 := by
  unfold execlOrFail
  split <;> simp_all

/-! ### Properties of `main` -/

/-- C1. Whitelist characterisation of `main`: an `execl` is attempted exactly when there are
at least 2 arguments, `setgroups`, `setgid` and `setuid` all succeeded, and either `argv[1]`
is `wg-show` with 2 or 3 arguments, or it is `wg-quick-up` or `wg-quick-down` with exactly 3;
in every other case `main` returns (with status 1) without any `execl`. -/
theorem main_exec_iff_whitelisted (sys : Sys) (argv : List String) :
    (execs (main sys argv).trace ≠ [] ↔
      2 ≤ argv.length ∧
      ((sys.setgroups []).ret = 0 ∧ (sys.setgid 0).ret = 0 ∧ (sys.setuid 0).ret = 0) ∧
      ((argv[1]? = some "wg-show" ∧ (argv.length = 2 ∨ argv.length = 3)) ∨
       ((argv[1]? = some "wg-quick-up" ∨ argv[1]? = some "wg-quick-down") ∧
        argv.length = 3))) ∧
    (execs (main sys argv).trace = [] → (main sys argv).outcome = .returned 1) := by
  rcases main_cases sys argv with ⟨hl, e⟩ | ⟨hl, h1, e⟩ | ⟨hl, h1, h2, e⟩ | ⟨hl, h1, h2, h3, e⟩ |
    ⟨hid, a0, a1, e0, e1, h⟩
  · rw [e]
    have : ¬ 2 ≤ argv.length := by omega
    simp [execs, Event.exec?, this]
  · rw [e]; simp [execs, Event.exec?, h1]
  · rw [e]; simp [execs, Event.exec?, h2]
  · rw [e]; simp [execs, Event.exec?, h3]
  · obtain ⟨g1, g2, g3⟩ := hid
    rcases h with ⟨hs, hc, e⟩ | ⟨hs, hc, a2, e2, e⟩ | ⟨hs, hc, e⟩ | ⟨hs, hc, a2, e2, e⟩ |
      ⟨hs, hc, hn, e⟩ | ⟨hs, hc, a2, e2, e⟩ | ⟨hs, hc, hn, e⟩ | ⟨hs, hu, hd, hc, e⟩
    all_goals rw [e]
    all_goals simp only [trace_after, outcome_after, execs_append, execs_execlOrFail, outcome_execlOrFail]
    all_goals simp [execs, Event.exec?, e1, hs, hc, g1, g2, g3]
    all_goals first | omega | simp_all

/-- C1 at `prog wg-quick-up`: no `execl`, and `main` returns 1. -/
theorem main_exec_iff_whitelisted_witness :
    execs (main sysOk ["prog", "wg-quick-up"]).trace = [] ∧
    (main sysOk ["prog", "wg-quick-up"]).outcome = .returned 1 :=
  ⟨by decide, (main_exec_iff_whitelisted sysOk ["prog", "wg-quick-up"]).2 (by decide)⟩

/-- C2. Fail-stop identity transition: with at least 2 arguments the system calls of a run
are a prefix of `setgroups(0, NULL)`, `setgid(0)`, `setuid(0)`, `execl`, in that order; when
one of the three identity calls fails, the run is exactly the calls up to the failing one
followed by its `perror`, and `main` returns 1: no later call and no `execl` is made. -/
theorem main_identity_fail_stop (sys : Sys) (argv : List String) (h : 2 ≤ argv.length) :
    (∃ p a, sysCalls (main sys argv).trace <+:
      [.setgroups [], .setgid 0, .setuid 0, .execl p a]) ∧
    ((sys.setgroups []).ret ≠ 0 →
      main sys argv =
        { trace := [.setgroups [], .perror "setgroups" (sys.setgroups []).errno],
          outcome := .returned 1 }) ∧
    ((sys.setgroups []).ret = 0 → (sys.setgid 0).ret ≠ 0 →
      main sys argv =
        { trace := [.setgroups [], .setgid 0, .perror "setgid" (sys.setgid 0).errno],
          outcome := .returned 1 }) ∧
    ((sys.setgroups []).ret = 0 → (sys.setgid 0).ret = 0 → (sys.setuid 0).ret ≠ 0 →
      main sys argv =
        { trace := [.setgroups [], .setgid 0, .setuid 0,
                    .perror "setuid" (sys.setuid 0).errno],
          outcome := .returned 1 }) ∧
    (¬ identityOk sys →
      (main sys argv).outcome = .returned 1 ∧ execs (main sys argv).trace = []) := by
  refine ⟨?_, main_setgroups_fail sys argv h, main_setgid_fail sys argv h,
    main_setuid_fail sys argv h, ?_⟩
  · rcases main_cases sys argv with ⟨hl, e⟩ | ⟨hl, h1, e⟩ | ⟨hl, h1, h2, e⟩ |
      ⟨hl, h1, h2, h3, e⟩ | ⟨hid, a0, a1, e0, e1, hd⟩
    · omega
    · rw [e]; exact ⟨"", [], by simp [sysCalls, Event.isSysCall, List.prefix_cons_iff]⟩
    · rw [e]; exact ⟨"", [], by simp [sysCalls, Event.isSysCall, List.prefix_cons_iff]⟩
    · rw [e]; exact ⟨"", [], by simp [sysCalls, Event.isSysCall, List.prefix_cons_iff]⟩
    · rcases hd with ⟨hs, hc, e⟩ | ⟨hs, hc, a2, e2, e⟩ | ⟨hs, hc, e⟩ | ⟨hs, hc, a2, e2, e⟩ |
        ⟨hs, hc, hn, e⟩ | ⟨hs, hc, a2, e2, e⟩ | ⟨hs, hc, hn, e⟩ | ⟨hs, hu, hd, hc, e⟩
      · rw [e]
        refine ⟨"/opt/homebrew/bin/wg", ["wg", "show"], ?_⟩
        simp only [trace_after, sysCalls_append, sysCalls_execlOrFail]
        simp [sysCalls, Event.isSysCall]
      · rw [e]
        refine ⟨"/opt/homebrew/bin/wg", ["wg", "show", a2], ?_⟩
        simp only [trace_after, sysCalls_append, sysCalls_execlOrFail]
        simp [sysCalls, Event.isSysCall]
      · rw [e]; exact ⟨"", [], by simp [sysCalls, Event.isSysCall, List.prefix_cons_iff]⟩
      · rw [e]
        refine ⟨"/opt/homebrew/bin/wg-quick", ["wg-quick", "up", a2], ?_⟩
        simp only [trace_after, sysCalls_append, sysCalls_execlOrFail]
        simp [sysCalls, Event.isSysCall]
      · rw [e]; exact ⟨"", [], by simp [sysCalls, Event.isSysCall, List.prefix_cons_iff]⟩
      · rw [e]
        refine ⟨"/opt/homebrew/bin/wg-quick", ["wg-quick", "down", a2], ?_⟩
        simp only [trace_after, sysCalls_append, sysCalls_execlOrFail]
        simp [sysCalls, Event.isSysCall]
      · rw [e]; exact ⟨"", [], by simp [sysCalls, Event.isSysCall, List.prefix_cons_iff]⟩
      · rw [e]; exact ⟨"", [], by simp [sysCalls, Event.isSysCall, List.prefix_cons_iff]⟩
  · intro hno
    rcases main_cases sys argv with ⟨hl, e⟩ | ⟨hl, h1, e⟩ | ⟨hl, h1, h2, e⟩ |
      ⟨hl, h1, h2, h3, e⟩ | ⟨hid, _⟩
    · omega
    · rw [e]; simp [execs, Event.exec?]
    · rw [e]; simp [execs, Event.exec?]
    · rw [e]; simp [execs, Event.exec?]
    · exact absurd hid hno

/-- C2 at `prog wg-quick-up wg0` where `setgid(0)` fails: the run stops after `setgid`. -/
theorem main_identity_fail_stop_witness :
    2 ≤ ["prog", "wg-quick-up", "wg0"].length ∧ ¬ identityOk sysNoGid ∧
    main sysNoGid ["prog", "wg-quick-up", "wg0"] =
      { trace := [.setgroups [], .setgid 0, .perror "setgid" 1], outcome := .returned 1 } :=
  ⟨by decide, by decide,
    (main_identity_fail_stop sysNoGid ["prog", "wg-quick-up", "wg0"] (by decide)).2.2.1
      (by decide) (by decide)⟩

/-- C3. Usage check: with fewer than 2 arguments (the empty vector and a lone program name
included) `main` returns 1, writes to `stderr` the usage line and then the line listing
exactly the three subcommand names, and makes no `setgroups`, `setgid`, `setuid` or `execl`
call. -/
theorem main_usage_check (sys : Sys) (argv : List String) (h : argv.length < 2) :
    (main sys argv).outcome = .returned 1 ∧
    errOut sys (main sys argv).trace =
      ["Usage: " ++ fmtS sys argv[0]? ++ " <command> [args...]\n",
       "Commands: " ++ ", ".intercalate commands ++ "\n"] ∧
    sysCalls (main sys argv).trace = [] := by
  rw [main_short sys argv h]
  refine ⟨rfl, ?_, ?_⟩
  · have hc : "Commands: " ++ ", ".intercalate commands ++ "\n" =
        "Commands: wg-show, wg-quick-up, wg-quick-down\n" := by decide
    rw [hc]
    simp [errOut, Event.stderrText]
  · simp [sysCalls, Event.isSysCall]

/-- C3 at the lone program name `prog`. -/
theorem main_usage_check_witness :
    ["prog"].length < 2 ∧
    (main sysOk ["prog"]).outcome = .returned 1 ∧
    errOut sysOk (main sysOk ["prog"]).trace =
      ["Usage: " ++ fmtS sysOk ["prog"][0]? ++ " <command> [args...]\n",
       "Commands: " ++ ", ".intercalate commands ++ "\n"] ∧
    sysCalls (main sysOk ["prog"]).trace = [] :=
  ⟨by decide, main_usage_check sysOk ["prog"] (by decide)⟩

/-- C4. Dispatch of `wg-show`: when `argv[1]` is `wg-show` and the three identity calls
succeed, a run with exactly 2 arguments attempts `execl` on `/opt/homebrew/bin/wg` with the
argument vector `wg show`, and a run with exactly 3 arguments attempts it on the same path
with `wg show argv[2]`; no other `execl` is attempted. -/
theorem wg_show_dispatch (sys : Sys) (argv : List String) (h1 : argv[1]? = some "wg-show")
    (hid : identityOk sys) :
    (argv.length = 2 →
      execs (main sys argv).trace = [("/opt/homebrew/bin/wg", ["wg", "show"])]) ∧
    (∀ h3 : argv.length = 3,
      execs (main sys argv).trace = [("/opt/homebrew/bin/wg", ["wg", "show", argv[2]])]) := by
  obtain ⟨g1, g2, g3⟩ := hid
  constructor
  · intro h2
    rw [main_dispatch sys argv (by omega) g1 g2 g3, dispatch_show2 sys argv (by omega) h1 h2]
    simp only [trace_after, execs_append, execs_execlOrFail]
    simp [execs, Event.exec?]
  · intro h3
    rw [main_dispatch sys argv (by omega) g1 g2 g3,
      dispatch_show3 sys argv (by omega) h1 h3 argv[2] (List.getElem?_eq_getElem _)]
    simp only [trace_after, execs_append, execs_execlOrFail]
    simp [execs, Event.exec?]

/-- C4 at `prog wg-show`: the run attempts `wg show`. -/
theorem wg_show_dispatch_witness :
    ["prog", "wg-show"][1]? = some "wg-show" ∧ identityOk sysOk ∧
    execs (main sysOk ["prog", "wg-show"]).trace = [("/opt/homebrew/bin/wg", ["wg", "show"])] :=
  ⟨by decide, by decide, (wg_show_dispatch sysOk ["prog", "wg-show"] (by decide) (by decide)).1
    (by decide)⟩

/-- C5. Dispatch of `wg-quick-up` and `wg-quick-down`: with exactly 3 arguments and the three
identity calls succeeding, the system calls are `setgroups(0, NULL)`, `setgid(0)`,
`setuid(0)` and then `execl` on `/opt/homebrew/bin/wg-quick` with the argument vector
`wg-quick up argv[2]` (respectively `wg-quick down argv[2]`). -/
theorem wg_quick_dispatch (sys : Sys) (argv : List String) (h3 : argv.length = 3)
    (hid : identityOk sys) :
    (argv[1]? = some "wg-quick-up" →
      sysCalls (main sys argv).trace =
        [.setgroups [], .setgid 0, .setuid 0,
         .execl "/opt/homebrew/bin/wg-quick" ["wg-quick", "up", argv[2]]]) ∧
    (argv[1]? = some "wg-quick-down" →
      sysCalls (main sys argv).trace =
        [.setgroups [], .setgid 0, .setuid 0,
         .execl "/opt/homebrew/bin/wg-quick" ["wg-quick", "down", argv[2]]]) := by
  obtain ⟨g1, g2, g3⟩ := hid
  constructor
  · intro h1
    rw [main_dispatch sys argv (by omega) g1 g2 g3,
      dispatch_up sys argv (by omega) h1 h3 argv[2] (List.getElem?_eq_getElem _)]
    simp only [trace_after, sysCalls_append, sysCalls_execlOrFail]
    simp [sysCalls, Event.isSysCall]
  · intro h1
    rw [main_dispatch sys argv (by omega) g1 g2 g3,
      dispatch_down sys argv (by omega) h1 h3 argv[2] (List.getElem?_eq_getElem _)]
    simp only [trace_after, sysCalls_append, sysCalls_execlOrFail]
    simp [sysCalls, Event.isSysCall]

/-- C5 at `prog wg-quick-up wg0`: the run attempts `wg-quick up wg0` after the identity calls. -/
theorem wg_quick_dispatch_witness :
    ["prog", "wg-quick-up", "wg0"].length = 3 ∧ identityOk sysOk ∧
    sysCalls (main sysOk ["prog", "wg-quick-up", "wg0"]).trace =
      [.setgroups [], .setgid 0, .setuid 0,
       .execl "/opt/homebrew/bin/wg-quick" ["wg-quick", "up", "wg0"]] :=
  ⟨by decide, by decide,
    (wg_quick_dispatch sysOk ["prog", "wg-quick-up", "wg0"] (by decide) (by decide)).1
      (by decide)⟩

/-- When an identity call fails, `main` returns 1 without any `execl`, and what it wrote to
`stderr` is the one `perror` line of a failed identity call. -/
theorem main_identity_fail (sys : Sys) (argv : List String) (h : 2 ≤ argv.length)
    (hno : ¬ identityOk sys) :
    (main sys argv).outcome = .returned 1 ∧ execs (main sys argv).trace = [] ∧
    ∃ s e, s ∈ ["setgroups", "setgid", "setuid"] ∧
      errOut sys (main sys argv).trace = [s ++ ": " ++ sys.strerror e ++ "\n"] := by
  by_cases h1 : (sys.setgroups []).ret = 0
  swap
  · rw [main_setgroups_fail sys argv h h1]
    exact ⟨rfl, by simp [execs, Event.exec?], "setgroups", (sys.setgroups []).errno,
      by simp, by simp [errOut, Event.stderrText]⟩
  by_cases h2 : (sys.setgid 0).ret = 0
  swap
  · rw [main_setgid_fail sys argv h h1 h2]
    exact ⟨rfl, by simp [execs, Event.exec?], "setgid", (sys.setgid 0).errno,
      by simp, by simp [errOut, Event.stderrText]⟩
  by_cases h3 : (sys.setuid 0).ret = 0
  swap
  · rw [main_setuid_fail sys argv h h1 h2 h3]
    exact ⟨rfl, by simp [execs, Event.exec?], "setuid", (sys.setuid 0).errno,
      by simp, by simp [errOut, Event.stderrText]⟩
  exact absurd ⟨h1, h2, h3⟩ hno

/-- What `main` writes to `stderr` when an identity call fails: the `perror` line of the
first call that failed, with that call's name and the `errno` it left. -/
theorem main_identity_fail_errOut (sys : Sys) (argv : List String) (h : 2 ≤ argv.length) :
    ((sys.setgroups []).ret ≠ 0 →
      errOut sys (main sys argv).trace =
        ["setgroups: " ++ sys.strerror (sys.setgroups []).errno ++ "\n"]) ∧
    ((sys.setgroups []).ret = 0 → (sys.setgid 0).ret ≠ 0 →
      errOut sys (main sys argv).trace =
        ["setgid: " ++ sys.strerror (sys.setgid 0).errno ++ "\n"]) ∧
    ((sys.setgroups []).ret = 0 → (sys.setgid 0).ret = 0 → (sys.setuid 0).ret ≠ 0 →
      errOut sys (main sys argv).trace =
        ["setuid: " ++ sys.strerror (sys.setuid 0).errno ++ "\n"]) := by
  refine ⟨fun h1 => ?_, fun h1 h2 => ?_, fun h1 h2 h3 => ?_⟩
  · rw [main_setgroups_fail sys argv h h1]
    simp [errOut, Event.stderrText]
  · rw [main_setgid_fail sys argv h h1 h2]
    simp [errOut, Event.stderrText]
  · rw [main_setuid_fail sys argv h h1 h2 h3]
    simp [errOut, Event.stderrText]

/-- C6, as stated, fails: `wg-show` with 4 arguments in an unprivileged environment writes
the `setgroups` error, not the `wg-show` diagnostic. -/
theorem wg_show_over_arity_counterexample :
    ["prog", "wg-show", "wg0", "wg1"][1]? = some "wg-show" ∧
    4 ≤ ["prog", "wg-show", "wg0", "wg1"].length ∧
    errOut sysNoPriv (main sysNoPriv ["prog", "wg-show", "wg0", "wg1"]).trace =
      ["setgroups: Operation not permitted\n"] ∧
    "Invalid arguments for wg-show\n" ∉
      errOut sysNoPriv (main sysNoPriv ["prog", "wg-show", "wg0", "wg1"]).trace := by
  decide

/-- C6, amended. Over-arity of `wg-show`: when `argv[1]` is `wg-show` and there are 4 or more
arguments, `main` returns 1 and attempts no `execl`; when the three identity calls succeed
the diagnostic on `stderr` is `Invalid arguments for wg-show`, and when one of them fails it
is the `perror` line of the first call that failed: that call's name and the `strerror` text
of the `errno` it left. -/
theorem wg_show_over_arity_rejected (sys : Sys) (argv : List String)
    (h1 : argv[1]? = some "wg-show") (h4 : 4 ≤ argv.length) :
    (main sys argv).outcome = .returned 1 ∧ execs (main sys argv).trace = [] ∧
    (identityOk sys →
      errOut sys (main sys argv).trace = ["Invalid arguments for wg-show\n"]) ∧
    ((sys.setgroups []).ret ≠ 0 →
      errOut sys (main sys argv).trace =
        ["setgroups: " ++ sys.strerror (sys.setgroups []).errno ++ "\n"]) ∧
    ((sys.setgroups []).ret = 0 → (sys.setgid 0).ret ≠ 0 →
      errOut sys (main sys argv).trace =
        ["setgid: " ++ sys.strerror (sys.setgid 0).errno ++ "\n"]) ∧
    ((sys.setgroups []).ret = 0 → (sys.setgid 0).ret = 0 → (sys.setuid 0).ret ≠ 0 →
      errOut sys (main sys argv).trace =
        ["setuid: " ++ sys.strerror (sys.setuid 0).errno ++ "\n"]) := by
  by_cases hid : identityOk sys
  · obtain ⟨g1, g2, g3⟩ := hid
    rw [main_dispatch sys argv (by omega) g1 g2 g3,
      dispatch_show_bad sys argv (by omega) h1 (by omega) (by omega)]
    refine ⟨rfl, by simp [Run.after, execs, Event.exec?], fun _ => ?_,
      fun k => absurd g1 k, fun _ k => absurd g2 k, fun _ _ k => absurd g3 k⟩
    simp [Run.after, errOut, Event.stderrText]
  · obtain ⟨ho, he, _⟩ := main_identity_fail sys argv (by omega) hid
    exact ⟨ho, he, fun h => absurd h hid, main_identity_fail_errOut sys argv (by omega)⟩

/-- C6, amended, at `prog wg-show wg0 wg1`: the `wg-show` diagnostic when the identity calls
succeed, the `setgid` error when `setgid(0)` fails. -/
theorem wg_show_over_arity_rejected_witness :
    ["prog", "wg-show", "wg0", "wg1"][1]? = some "wg-show" ∧
    4 ≤ ["prog", "wg-show", "wg0", "wg1"].length ∧ identityOk sysOk ∧
    errOut sysOk (main sysOk ["prog", "wg-show", "wg0", "wg1"]).trace =
      ["Invalid arguments for wg-show\n"] ∧
    (sysNoGid.setgroups []).ret = 0 ∧ (sysNoGid.setgid 0).ret ≠ 0 ∧
    errOut sysNoGid (main sysNoGid ["prog", "wg-show", "wg0", "wg1"]).trace =
      ["setgid: " ++ sysNoGid.strerror (sysNoGid.setgid 0).errno ++ "\n"] :=
  ⟨by decide, by decide, by decide,
    (wg_show_over_arity_rejected sysOk ["prog", "wg-show", "wg0", "wg1"] (by decide)
      (by decide)).2.2.1 (by decide),
    by decide, by decide,
    (wg_show_over_arity_rejected sysNoGid ["prog", "wg-show", "wg0", "wg1"] (by decide)
      (by decide)).2.2.2.2.1 (by decide) (by decide)⟩

/-- C7, as stated, fails: `wg-quick-up` with 2 arguments where `setgid(0)` fails writes the
`setgid` error, not the usage message. -/
theorem wg_quick_arity_counterexample :
    ["prog", "wg-quick-up"][1]? = some "wg-quick-up" ∧
    ["prog", "wg-quick-up"].length ≠ 3 ∧
    errOut sysNoGid (main sysNoGid ["prog", "wg-quick-up"]).trace =
      ["setgid: Operation not permitted\n"] ∧
    "Usage: prog wg-quick-up <interface>\n" ∉
      errOut sysNoGid (main sysNoGid ["prog", "wg-quick-up"]).trace := by
  decide

/-- C7, amended. Arity of `wg-quick-up` and `wg-quick-down`: when `argv[1]` is one of the two
and the argument count is not 3, `main` returns 1 and attempts no `execl`; when the three
identity calls succeed the diagnostic on `stderr` is the usage line naming `argv[0]`, the
subcommand that was invoked and `<interface>`, and when one of them fails it is the `perror`
line of the first call that failed: that call's name and the `strerror` text of the `errno`
it left. -/
theorem wg_quick_arity_rejected (sys : Sys) (argv : List String) (cmd : String)
    (hcmd : cmd = "wg-quick-up" ∨ cmd = "wg-quick-down") (h2 : 2 ≤ argv.length)
    (h1 : argv[1]? = some cmd) (hn : argv.length ≠ 3) :
    (main sys argv).outcome = .returned 1 ∧ execs (main sys argv).trace = [] ∧
    (identityOk sys →
      errOut sys (main sys argv).trace =
        ["Usage: " ++ argv[0] ++ " " ++ cmd ++ " <interface>\n"]) ∧
    ((sys.setgroups []).ret ≠ 0 →
      errOut sys (main sys argv).trace =
        ["setgroups: " ++ sys.strerror (sys.setgroups []).errno ++ "\n"]) ∧
    ((sys.setgroups []).ret = 0 → (sys.setgid 0).ret ≠ 0 →
      errOut sys (main sys argv).trace =
        ["setgid: " ++ sys.strerror (sys.setgid 0).errno ++ "\n"]) ∧
    ((sys.setgroups []).ret = 0 → (sys.setgid 0).ret = 0 → (sys.setuid 0).ret ≠ 0 →
      errOut sys (main sys argv).trace =
        ["setuid: " ++ sys.strerror (sys.setuid 0).errno ++ "\n"]) := by
  by_cases hid : identityOk sys
  · obtain ⟨g1, g2, g3⟩ := hid
    have e0 : argv[0]? = some argv[0] := List.getElem?_eq_getElem _
    rw [main_dispatch sys argv h2 g1 g2 g3]
    rcases hcmd with hc | hc
    · subst hc
      rw [dispatch_up_bad sys argv h2 h1 hn, e0]
      refine ⟨rfl, by simp [Run.after, execs, Event.exec?], fun _ => ?_,
        fun k => absurd g1 k, fun _ k => absurd g2 k, fun _ _ k => absurd g3 k⟩
      simp [Run.after, errOut, Event.stderrText, fmtS, String.append_assoc]
    · subst hc
      rw [dispatch_down_bad sys argv h2 h1 hn, e0]
      refine ⟨rfl, by simp [Run.after, execs, Event.exec?], fun _ => ?_,
        fun k => absurd g1 k, fun _ k => absurd g2 k, fun _ _ k => absurd g3 k⟩
      simp [Run.after, errOut, Event.stderrText, fmtS, String.append_assoc]
  · obtain ⟨ho, he, _⟩ := main_identity_fail sys argv h2 hid
    exact ⟨ho, he, fun h => absurd h hid, main_identity_fail_errOut sys argv h2⟩

/-- C7, amended, at `prog wg-quick-down wg0 wg1`: the usage line when the identity calls
succeed, the `setuid` error when `setuid(0)` fails. -/
theorem wg_quick_arity_rejected_witness :
    ("wg-quick-down" = "wg-quick-up" ∨ "wg-quick-down" = "wg-quick-down") ∧
    2 ≤ ["prog", "wg-quick-down", "wg0", "wg1"].length ∧
    ["prog", "wg-quick-down", "wg0", "wg1"][1]? = some "wg-quick-down" ∧
    ["prog", "wg-quick-down", "wg0", "wg1"].length ≠ 3 ∧ identityOk sysOk ∧
    errOut sysOk (main sysOk ["prog", "wg-quick-down", "wg0", "wg1"]).trace =
      ["Usage: " ++ "prog" ++ " " ++ "wg-quick-down" ++ " <interface>\n"] ∧
    (sysNoUid.setgroups []).ret = 0 ∧ (sysNoUid.setgid 0).ret = 0 ∧
    (sysNoUid.setuid 0).ret ≠ 0 ∧
    errOut sysNoUid (main sysNoUid ["prog", "wg-quick-down", "wg0", "wg1"]).trace =
      ["setuid: " ++ sysNoUid.strerror (sysNoUid.setuid 0).errno ++ "\n"] :=
  ⟨by decide, by decide, by decide, by decide, by decide,
    (wg_quick_arity_rejected sysOk ["prog", "wg-quick-down", "wg0", "wg1"] "wg-quick-down"
      (by decide) (by decide) (by decide) (by decide)).2.2.1 (by decide),
    by decide, by decide, by decide,
    (wg_quick_arity_rejected sysNoUid ["prog", "wg-quick-down", "wg0", "wg1"] "wg-quick-down"
      (by decide) (by decide) (by decide) (by decide)).2.2.2.2.2 (by decide) (by decide)
      (by decide)⟩

/-- C8, as stated, fails: an unknown command where `setuid(0)` fails writes the `setuid`
error, not the unknown-command diagnostic. -/
theorem unknown_command_counterexample :
    2 ≤ ["prog", "frobnicate"].length ∧
    "frobnicate" ∉ commands ∧
    errOut sysNoUid (main sysNoUid ["prog", "frobnicate"]).trace =
      ["setuid: Operation not permitted\n"] ∧
    "Unknown command: frobnicate\n" ∉
      errOut sysNoUid (main sysNoUid ["prog", "frobnicate"]).trace := by
  decide

/-- C8, amended. Unknown command: when there are at least 2 arguments and `argv[1]` is not,
as a whole string, one of `wg-show`, `wg-quick-up`, `wg-quick-down`, `main` returns 1 and
attempts no `execl`; when the three identity calls succeed it writes `Unknown command:`
with `argv[1]` and then the list of the three valid commands, and when one of them fails it
writes the `perror` line of the first call that failed: that call's name and the `strerror`
text of the `errno` it left. -/
theorem unknown_command_rejected (sys : Sys) (argv : List String) (a1 : String)
    (h1 : argv[1]? = some a1) (hs : a1 ≠ "wg-show") (hu : a1 ≠ "wg-quick-up")
    (hd : a1 ≠ "wg-quick-down") :
    (main sys argv).outcome = .returned 1 ∧ execs (main sys argv).trace = [] ∧
    (identityOk sys →
      errOut sys (main sys argv).trace =
        ["Unknown command: " ++ a1 ++ "\n",
         "Valid commands: " ++ ", ".intercalate commands ++ "\n"]) ∧
    ((sys.setgroups []).ret ≠ 0 →
      errOut sys (main sys argv).trace =
        ["setgroups: " ++ sys.strerror (sys.setgroups []).errno ++ "\n"]) ∧
    ((sys.setgroups []).ret = 0 → (sys.setgid 0).ret ≠ 0 →
      errOut sys (main sys argv).trace =
        ["setgid: " ++ sys.strerror (sys.setgid 0).errno ++ "\n"]) ∧
    ((sys.setgroups []).ret = 0 → (sys.setgid 0).ret = 0 → (sys.setuid 0).ret ≠ 0 →
      errOut sys (main sys argv).trace =
        ["setuid: " ++ sys.strerror (sys.setuid 0).errno ++ "\n"]) := by
  have h2 : 2 ≤ argv.length := by
    have := (List.getElem?_eq_some.1 h1).1
    omega
  by_cases hid : identityOk sys
  · obtain ⟨g1, g2, g3⟩ := hid
    rw [main_dispatch sys argv h2 g1 g2 g3, dispatch_unknown sys argv h2 a1 h1 hs hu hd]
    refine ⟨rfl, by simp [Run.after, execs, Event.exec?], fun _ => ?_,
      fun k => absurd g1 k, fun _ k => absurd g2 k, fun _ _ k => absurd g3 k⟩
    have hc : "Valid commands: " ++ ", ".intercalate commands ++ "\n" =
        "Valid commands: wg-show, wg-quick-up, wg-quick-down\n" := by decide
    rw [hc]
    simp [Run.after, errOut, Event.stderrText]
  · obtain ⟨ho, he, _⟩ := main_identity_fail sys argv h2 hid
    exact ⟨ho, he, fun h => absurd h hid, main_identity_fail_errOut sys argv h2⟩

/-- C8, amended, at `prog WG-SHOW`: the unknown-command diagnostic when the identity calls
succeed, the `setgroups` error when `setgroups` fails. -/
theorem unknown_command_rejected_witness :
    ["prog", "WG-SHOW"][1]? = some "WG-SHOW" ∧ "WG-SHOW" ≠ "wg-show" ∧
    "WG-SHOW" ≠ "wg-quick-up" ∧ "WG-SHOW" ≠ "wg-quick-down" ∧ identityOk sysOk ∧
    errOut sysOk (main sysOk ["prog", "WG-SHOW"]).trace =
      ["Unknown command: " ++ "WG-SHOW" ++ "\n",
       "Valid commands: " ++ ", ".intercalate commands ++ "\n"] ∧
    (sysNoPriv.setgroups []).ret ≠ 0 ∧
    errOut sysNoPriv (main sysNoPriv ["prog", "WG-SHOW"]).trace =
      ["setgroups: " ++ sysNoPriv.strerror (sysNoPriv.setgroups []).errno ++ "\n"] :=
  ⟨by decide, by decide, by decide, by decide, by decide,
    (unknown_command_rejected sysOk ["prog", "WG-SHOW"] "WG-SHOW" (by decide) (by decide)
      (by decide) (by decide)).2.2.1 (by decide),
    by decide,
    (unknown_command_rejected sysNoPriv ["prog", "WG-SHOW"] "WG-SHOW" (by decide) (by decide)
      (by decide) (by decide)).2.2.2.1 (by decide)⟩

/-- C9. Exit status: every run of `main` either returns exactly 1 or ends in a replaced
process image, so no status other than 1 is ever returned; and the image is replaced (with
nothing returned) exactly when an `execl` was attempted and succeeded. -/
theorem main_exit_status (sys : Sys) (argv : List String) :
    ((main sys argv).outcome = .returned 1 ∨ (main sys argv).outcome = .replaced) ∧
    ((main sys argv).outcome = .replaced ↔
      ∃ p a, (p, a) ∈ execs (main sys argv).trace ∧ sys.execl p a = none) := by
  rcases main_cases sys argv with ⟨hl, e⟩ | ⟨hl, h1, e⟩ | ⟨hl, h1, h2, e⟩ | ⟨hl, h1, h2, h3, e⟩ |
    ⟨hid, a0, a1, e0, e1, h⟩
  · rw [e]; simp [execs, Event.exec?]
  · rw [e]; simp [execs, Event.exec?]
  · rw [e]; simp [execs, Event.exec?]
  · rw [e]; simp [execs, Event.exec?]
  · rcases h with ⟨hs, hc, e⟩ | ⟨hs, hc, a2, e2, e⟩ | ⟨hs, hc, e⟩ | ⟨hs, hc, a2, e2, e⟩ |
      ⟨hs, hc, hn, e⟩ | ⟨hs, hc, a2, e2, e⟩ | ⟨hs, hc, hn, e⟩ | ⟨hs, hu, hd, hc, e⟩
    all_goals rw [e]
    all_goals simp only [trace_after, outcome_after, execs_append, execs_execlOrFail,
      outcome_execlOrFail]
    all_goals simp [execs, Event.exec?]
    all_goals refine ⟨(Classical.em _).symm, fun hx => ⟨_, _, ⟨rfl, rfl⟩, hx⟩, ?_⟩
    all_goals rintro ⟨q, b, ⟨rfl, rfl⟩, hx⟩
    all_goals exact hx

/-- C10. Hardcoded executable path: whenever `execl` is attempted the path and the first two
entries of the argument vector are one of three fixed triples chosen by `argv[1]` alone, the
rest of the vector is empty or the single string `argv[2]`, and any other run with the same
`argv[1]` that attempts `execl`, whatever its environment and other arguments, uses the same
path and the same first two entries. -/
theorem exec_path_hardcoded (sys : Sys) (argv : List String) (p : String) (a : List String)
    (h : (p, a) ∈ execs (main sys argv).trace) :
    ((argv[1]? = some "wg-show" ∧ p = "/opt/homebrew/bin/wg" ∧ a.take 2 = ["wg", "show"]) ∨
     (argv[1]? = some "wg-quick-up" ∧ p = "/opt/homebrew/bin/wg-quick" ∧
        a.take 2 = ["wg-quick", "up"]) ∨
     (argv[1]? = some "wg-quick-down" ∧ p = "/opt/homebrew/bin/wg-quick" ∧
        a.take 2 = ["wg-quick", "down"])) ∧
    (a.drop 2 = [] ∨ ∃ h3 : argv.length = 3, a.drop 2 = [argv[2]]) ∧
    (∀ (sys2 : Sys) (argv2 : List String) (p2 : String) (a2 : List String),
      argv2[1]? = argv[1]? → (p2, a2) ∈ execs (main sys2 argv2).trace →
      p2 = p ∧ a2.take 2 = a.take 2) := by
  have key : ∀ (s : Sys) (v : List String) (q : String) (b : List String),
      (q, b) ∈ execs (main s v).trace →
      ((v[1]? = some "wg-show" ∧ q = "/opt/homebrew/bin/wg" ∧ b.take 2 = ["wg", "show"]) ∨
       (v[1]? = some "wg-quick-up" ∧ q = "/opt/homebrew/bin/wg-quick" ∧
          b.take 2 = ["wg-quick", "up"]) ∨
       (v[1]? = some "wg-quick-down" ∧ q = "/opt/homebrew/bin/wg-quick" ∧
          b.take 2 = ["wg-quick", "down"])) ∧
      (b.drop 2 = [] ∨ ∃ h3 : v.length = 3, b.drop 2 = [v[2]]) := by
    intro s v q b hm
    rcases main_cases s v with ⟨hl, e⟩ | ⟨hl, h1, e⟩ | ⟨hl, h1, h2, e⟩ | ⟨hl, h1, h2, h3, e⟩ |
      ⟨hid, a0, a1, e0, e1, hd⟩
    · rw [e] at hm; simp [execs, Event.exec?] at hm
    · rw [e] at hm; simp [execs, Event.exec?] at hm
    · rw [e] at hm; simp [execs, Event.exec?] at hm
    · rw [e] at hm; simp [execs, Event.exec?] at hm
    · rcases hd with ⟨hs, hc, e⟩ | ⟨hs, hc, a2, e2, e⟩ | ⟨hs, hc, e⟩ | ⟨hs, hc, a2, e2, e⟩ |
        ⟨hs, hc, hn, e⟩ | ⟨hs, hc, a2, e2, e⟩ | ⟨hs, hc, hn, e⟩ | ⟨hs, hu, hd, hc, e⟩
      all_goals rw [e] at hm
      all_goals simp only [trace_after, execs_append, execs_execlOrFail] at hm
      all_goals simp [execs, Event.exec?] at hm
      all_goals obtain ⟨rfl, rfl⟩ := hm
      all_goals subst hs
      all_goals simp [e1]
      all_goals exact ⟨hc, ((List.getElem?_eq_some.1 e2).2).symm⟩
  refine ⟨(key sys argv p a h).1, (key sys argv p a h).2, ?_⟩
  intro sys2 argv2 p2 a2 heq h2
  have k1 := (key sys argv p a h).1
  have k2 := (key sys2 argv2 p2 a2 h2).1
  rw [heq] at k2
  rcases k1 with ⟨c, rfl, t⟩ | ⟨c, rfl, t⟩ | ⟨c, rfl, t⟩ <;>
    rcases k2 with ⟨c2, rfl, t2⟩ | ⟨c2, rfl, t2⟩ | ⟨c2, rfl, t2⟩ <;>
    first
    | exact ⟨rfl, t2.trans t.symm⟩
    | (exfalso; rw [c] at c2; simp at c2)

/-- C10 at `prog wg-quick-up wg0`: every run with the same `argv[1]` uses the same path and verb. -/
theorem exec_path_hardcoded_witness :
    ("/opt/homebrew/bin/wg-quick", ["wg-quick", "up", "wg0"]) ∈
      execs (main sysOk ["prog", "wg-quick-up", "wg0"]).trace ∧
    (∀ (sys2 : Sys) (argv2 : List String) (p2 : String) (a2 : List String),
      argv2[1]? = ["prog", "wg-quick-up", "wg0"][1]? →
      (p2, a2) ∈ execs (main sys2 argv2).trace →
      p2 = "/opt/homebrew/bin/wg-quick" ∧
      a2.take 2 = ["wg-quick", "up", "wg0"].take 2) :=
  ⟨by decide,
    (exec_path_hardcoded sysOk ["prog", "wg-quick-up", "wg0"] "/opt/homebrew/bin/wg-quick"
      ["wg-quick", "up", "wg0"] (by decide)).2.2⟩

theorem errOut_execlOrFail (sys : Sys) (p : String) (a : List String) :
    errOut sys (execlOrFail sys p a).trace =
      match sys.execl p a with
      | none => []
      | some e => ["execl: " ++ sys.strerror e ++ "\n"] := by
  unfold execlOrFail
  split <;> simp [errOut, Event.stderrText]

/-- What a run that reaches `execl` writes to `stderr` when `main` returns: the one `perror`
line of the failed `execl`. -/
theorem errOut_execlOrFail_returned (sys : Sys) (p : String) (a : List String) (s : Int)
    (h : (execlOrFail sys p a).outcome = .returned s) :
    ∃ e, errOut sys (execlOrFail sys p a).trace = ["execl: " ++ sys.strerror e ++ "\n"] := by
  rw [errOut_execlOrFail]
  rw [outcome_execlOrFail] at h
  cases hx : sys.execl p a with
  | none => simp [hx] at h
  | some e => exact ⟨e, rfl⟩

/-- C11, as stated, fails: the run on the lone program name ends in the usage error and
writes two lines to `stderr`, not one. -/
theorem single_diagnostic_line_counterexample :
    (main sysOk ["prog"]).outcome = .returned 1 ∧
    errOut sysOk (main sysOk ["prog"]).trace =
      ["Usage: prog <command> [args...]\n",
       "Commands: wg-show, wg-quick-up, wg-quick-down\n"] ∧
    (errOut sysOk (main sysOk ["prog"]).trace).length ≠ 1 := by
  decide

/-- C11, amended. Diagnostics of a run that ends in an error: every call that writes to
`stderr` writes a newline-terminated text; the usage error (fewer than 2 arguments) and the
unknown-command error (identity calls succeeded, `argv[1]` none of the three commands) make
two such calls, and every other error (identity-call failure, arity error, failed `execl`)
makes exactly one. -/
theorem error_diagnostic_lines (sys : Sys) (argv : List String) (s : Int)
    (h : (main sys argv).outcome = .returned s) :
    (∀ l ∈ errOut sys (main sys argv).trace, ∃ x, l = x ++ "\n") ∧
    ((argv.length < 2 ∨ (identityOk sys ∧ ∃ a1, argv[1]? = some a1 ∧ a1 ∉ commands)) →
      (errOut sys (main sys argv).trace).length = 2) ∧
    (¬ (argv.length < 2 ∨ (identityOk sys ∧ ∃ a1, argv[1]? = some a1 ∧ a1 ∉ commands)) →
      (errOut sys (main sys argv).trace).length = 1) := by
  rcases main_cases sys argv with ⟨hl, e⟩ | ⟨hl, h1, e⟩ | ⟨hl, h1, h2, e⟩ | ⟨hl, h1, h2, h3, e⟩ |
    ⟨hid, a0, a1, e0, e1, hd⟩
  · rw [e]
    refine ⟨?_, fun _ => by simp [errOut, Event.stderrText], fun hn => absurd (Or.inl hl) hn⟩
    intro l hm
    simp [errOut, Event.stderrText] at hm
    rcases hm with rfl | rfl
    · exact ⟨"Usage: " ++ fmtS sys argv[0]? ++ " <command> [args...]",
        by simp [String.append_assoc]⟩
    · exact ⟨"Commands: wg-show, wg-quick-up, wg-quick-down", by decide⟩
  · rw [e]
    refine ⟨?_, fun hc => ?_, fun _ => by simp [errOut, Event.stderrText]⟩
    · intro l hm
      simp [errOut, Event.stderrText] at hm
      exact ⟨_, hm⟩
    · rcases hc with hc | ⟨hc, _⟩
      · omega
      · exact absurd hc.1 h1
  · rw [e]
    refine ⟨?_, fun hc => ?_, fun _ => by simp [errOut, Event.stderrText]⟩
    · intro l hm
      simp [errOut, Event.stderrText] at hm
      exact ⟨_, hm⟩
    · rcases hc with hc | ⟨hc, _⟩
      · omega
      · exact absurd hc.2.1 h2
  · rw [e]
    refine ⟨?_, fun hc => ?_, fun _ => by simp [errOut, Event.stderrText]⟩
    · intro l hm
      simp [errOut, Event.stderrText] at hm
      exact ⟨_, hm⟩
    · rcases hc with hc | ⟨hc, _⟩
      · omega
      · exact absurd hc.2.2 h3
  · have hlen : 2 ≤ argv.length := by
      have := (List.getElem?_eq_some.1 e1).1
      omega
    have known : a1 ∈ commands → ¬ (argv.length < 2 ∨
        (identityOk sys ∧ ∃ b, argv[1]? = some b ∧ b ∉ commands)) := by
      rintro hk (hc | ⟨_, b, hb, hnb⟩)
      · omega
      · rw [e1] at hb
        cases hb
        exact hnb hk
    have viaExec : ∀ (pre : List Event) (p : String) (a : List String),
        errOut sys pre = [] → a1 ∈ commands →
        main sys argv = (execlOrFail sys p a).after pre →
        (∀ l ∈ errOut sys (main sys argv).trace, ∃ x, l = x ++ "\n") ∧
        ((argv.length < 2 ∨ (identityOk sys ∧ ∃ b, argv[1]? = some b ∧ b ∉ commands)) →
          (errOut sys (main sys argv).trace).length = 2) ∧
        (¬ (argv.length < 2 ∨ (identityOk sys ∧ ∃ b, argv[1]? = some b ∧ b ∉ commands)) →
          (errOut sys (main sys argv).trace).length = 1) := by
      intro pre p a hpre hk e
      rw [e, outcome_after] at h
      obtain ⟨x, hx⟩ := errOut_execlOrFail_returned sys p a s h
      rw [e, trace_after, errOut_append, hpre, hx]
      refine ⟨?_, fun hc => absurd hc (known hk), fun _ => by simp⟩
      intro l hm
      simp at hm
      exact ⟨_, hm⟩
    have viaFprintf : ∀ (pre : List Event) (x : String),
        errOut sys pre = [] → a1 ∈ commands →
        main sys argv = { trace := pre ++ [.fprintf (x ++ "\n")], outcome := .returned 1 } →
        (∀ l ∈ errOut sys (main sys argv).trace, ∃ x, l = x ++ "\n") ∧
        ((argv.length < 2 ∨ (identityOk sys ∧ ∃ b, argv[1]? = some b ∧ b ∉ commands)) →
          (errOut sys (main sys argv).trace).length = 2) ∧
        (¬ (argv.length < 2 ∨ (identityOk sys ∧ ∃ b, argv[1]? = some b ∧ b ∉ commands)) →
          (errOut sys (main sys argv).trace).length = 1) := by
      intro pre x hpre hk e
      rw [e]
      simp only [errOut_append, hpre]
      refine ⟨?_, fun hc => absurd hc (known hk), fun _ => by simp [errOut, Event.stderrText]⟩
      intro l hm
      simp [errOut, Event.stderrText] at hm
      exact ⟨_, hm⟩
    rcases hd with ⟨hs, hc, e⟩ | ⟨hs, hc, a2, e2, e⟩ | ⟨hs, hc, e⟩ | ⟨hs, hc, a2, e2, e⟩ |
      ⟨hs, hc, hn, e⟩ | ⟨hs, hc, a2, e2, e⟩ | ⟨hs, hc, hn, e⟩ | ⟨hs, hu, hd, hc, e⟩
    · exact viaExec _ _ _ (by simp [errOut, Event.stderrText]) (by simp [hs, commands]) e
    · exact viaExec _ _ _ (by simp [errOut, Event.stderrText]) (by simp [hs, commands]) e
    · refine viaFprintf [.setgroups [], .setgid 0, .setuid 0, .argv 1]
        "Invalid arguments for wg-show" (by simp [errOut, Event.stderrText])
        (by simp [hs, commands]) ?_
      rw [e]
      simp
    · exact viaExec _ _ _ (by simp [errOut, Event.stderrText]) (by simp [hs, commands]) e
    · refine viaFprintf [.setgroups [], .setgid 0, .setuid 0, .argv 1, .argv 1, .argv 0]
        ("Usage: " ++ a0 ++ " wg-quick-up <interface>") (by simp [errOut, Event.stderrText])
        (by simp [hs, commands]) ?_
      rw [e]
      simp [String.append_assoc]
    · exact viaExec _ _ _ (by simp [errOut, Event.stderrText]) (by simp [hs, commands]) e
    · refine viaFprintf
        [.setgroups [], .setgid 0, .setuid 0, .argv 1, .argv 1, .argv 1, .argv 0]
        ("Usage: " ++ a0 ++ " wg-quick-down <interface>") (by simp [errOut, Event.stderrText])
        (by simp [hs, commands]) ?_
      rw [e]
      simp [String.append_assoc]
    · rw [e]
      refine ⟨?_, fun _ => by simp [errOut, Event.stderrText], fun hn => ?_⟩
      · intro l hm
        simp [errOut, Event.stderrText] at hm
        rcases hm with rfl | rfl
        · exact ⟨_, rfl⟩
        · exact ⟨"Valid commands: wg-show, wg-quick-up, wg-quick-down", by decide⟩
      · exact absurd (Or.inr ⟨hid, a1, e1, by simp [commands, hs, hu, hd]⟩) hn

/-- C11, amended, at `prog wg-show wg0` where `execl` fails: one line on `stderr`. -/
theorem error_diagnostic_lines_witness :
    (main sysNoTool ["prog", "wg-show", "wg0"]).outcome = .returned 1 ∧
    (errOut sysNoTool (main sysNoTool ["prog", "wg-show", "wg0"]).trace).length = 1 :=
  ⟨by decide,
    (error_diagnostic_lines sysNoTool ["prog", "wg-show", "wg0"] 1 (by decide)).2.2
      (by decide)⟩

/-- The end of a run that reaches `execl` after the events `pre`, none of which is an
`execl`, a `perror("execl")` or a write to `stderr`. -/
theorem execlOrFail_after_spec (sys : Sys) (pre : List Event) (p : String) (a : List String)
    (hx : execs pre = []) (hp : ∀ e, Event.perror "execl" e ∉ pre)
    (ho : errOut sys pre = []) :
    (∀ e, Event.perror "execl" e ∈ ((execlOrFail sys p a).after pre).trace ↔
      ∃ q b, (q, b) ∈ execs ((execlOrFail sys p a).after pre).trace ∧ sys.execl q b = some e) ∧
    (∀ q b, (q, b) ∈ execs ((execlOrFail sys p a).after pre).trace → sys.execl q b = none →
      ((execlOrFail sys p a).after pre).outcome = .replaced ∧
      errOut sys ((execlOrFail sys p a).after pre).trace = [] ∧
      ∃ init, ((execlOrFail sys p a).after pre).trace = init ++ [.execl q b]) ∧
    (∀ q b e, (q, b) ∈ execs ((execlOrFail sys p a).after pre).trace →
      sys.execl q b = some e →
      ((execlOrFail sys p a).after pre).outcome = .returned 1 ∧
      ∃ init, ((execlOrFail sys p a).after pre).trace =
        init ++ [.execl q b, .perror "execl" e]) := by
  simp only [trace_after, outcome_after, execs_append, execs_execlOrFail, hx, errOut_append, ho,
    List.nil_append, List.mem_singleton, Prod.mk.injEq, List.mem_append]
  cases hr : sys.execl p a with
  | none =>
    refine ⟨fun e => ⟨fun hm => ?_, ?_⟩, ?_, ?_⟩
    · rcases hm with hm | hm
      · exact absurd hm (hp e)
      · simp [execlOrFail, hr] at hm
    · rintro ⟨q, b, ⟨rfl, rfl⟩, hq⟩
      rw [hr] at hq
      cases hq
    · rintro q b ⟨rfl, rfl⟩ _
      exact ⟨by simp [execlOrFail, hr], by simp [execlOrFail, hr, errOut, Event.stderrText],
        pre, by simp [execlOrFail, hr]⟩
    · rintro q b e ⟨rfl, rfl⟩ hq
      rw [hr] at hq
      cases hq
  | some e0 =>
    refine ⟨fun e => ⟨fun hm => ?_, ?_⟩, ?_, ?_⟩
    · rcases hm with hm | hm
      · exact absurd hm (hp e)
      · simp [execlOrFail, hr] at hm
        exact ⟨p, a, ⟨rfl, rfl⟩, by rw [hr, hm]⟩
    · rintro ⟨q, b, ⟨rfl, rfl⟩, hq⟩
      rw [hr] at hq
      cases hq
      exact Or.inr (by simp [execlOrFail, hr])
    · rintro q b ⟨rfl, rfl⟩ hq
      rw [hr] at hq
      cases hq
    · rintro q b e ⟨rfl, rfl⟩ hq
      rw [hr] at hq
      cases hq
      exact ⟨by simp [execlOrFail, hr], pre, by simp [execlOrFail, hr]⟩

/-- C12. Exec-failure fallback: the final `perror("execl")` of `main` appears in a run exactly
when an `execl` was attempted and failed, so never after a validation or identity-call
failure; it then follows the `execl` directly, ends the run, and `main` returns 1.  When the
attempted `execl` succeeds it is the last event of the run: the process image is replaced,
nothing is written to `stderr` and nothing is returned. -/
theorem exec_failure_fallback (sys : Sys) (argv : List String) :
    (∀ e, Event.perror "execl" e ∈ (main sys argv).trace ↔
      ∃ q b, (q, b) ∈ execs (main sys argv).trace ∧ sys.execl q b = some e) ∧
    (∀ q b, (q, b) ∈ execs (main sys argv).trace → sys.execl q b = none →
      (main sys argv).outcome = .replaced ∧
      errOut sys (main sys argv).trace = [] ∧
      ∃ init, (main sys argv).trace = init ++ [.execl q b]) ∧
    (∀ q b e, (q, b) ∈ execs (main sys argv).trace → sys.execl q b = some e →
      (main sys argv).outcome = .returned 1 ∧
      ∃ init, (main sys argv).trace = init ++ [.execl q b, .perror "execl" e]) := by
  rcases main_cases sys argv with ⟨hl, e⟩ | ⟨hl, h1, e⟩ | ⟨hl, h1, h2, e⟩ | ⟨hl, h1, h2, h3, e⟩ |
    ⟨hid, a0, a1, e0, e1, hd⟩
  · rw [e]; simp [execs, Event.exec?]
  · rw [e]; simp [execs, Event.exec?]
  · rw [e]; simp [execs, Event.exec?]
  · rw [e]; simp [execs, Event.exec?]
  · rcases hd with ⟨hs, hc, e⟩ | ⟨hs, hc, a2, e2, e⟩ | ⟨hs, hc, e⟩ | ⟨hs, hc, a2, e2, e⟩ |
      ⟨hs, hc, hn, e⟩ | ⟨hs, hc, a2, e2, e⟩ | ⟨hs, hc, hn, e⟩ | ⟨hs, hu, hd, hc, e⟩
    all_goals rw [e]
    all_goals first
      | exact execlOrFail_after_spec sys _ _ _ (by simp [execs, Event.exec?]) (by simp)
          (by simp [errOut, Event.stderrText])
      | simp [execs, Event.exec?]

/-- C12 at `prog wg-show wg0` where `execl` fails with `ENOENT`: the run ends with the
`execl` and its `perror`. -/
theorem exec_failure_fallback_witness :
    ("/opt/homebrew/bin/wg", ["wg", "show", "wg0"]) ∈
      execs (main sysNoTool ["prog", "wg-show", "wg0"]).trace ∧
    sysNoTool.execl "/opt/homebrew/bin/wg" ["wg", "show", "wg0"] = some 2 ∧
    (main sysNoTool ["prog", "wg-show", "wg0"]).outcome = .returned 1 ∧
    ∃ init, (main sysNoTool ["prog", "wg-show", "wg0"]).trace =
      init ++ [.execl "/opt/homebrew/bin/wg" ["wg", "show", "wg0"], .perror "execl" 2] :=
  ⟨by decide, by decide,
    (exec_failure_fallback sysNoTool ["prog", "wg-show", "wg0"]).2.2 _ _ 2 (by decide)
      (by decide)⟩

/-- The run on `wg-show` with 4 or more arguments is the same whatever the arguments and
their number are. -/
theorem main_show_over_arity_eq (sys : Sys) (argv argv2 : List String)
    (h1 : argv[1]? = some "wg-show") (h4 : 4 ≤ argv.length)
    (k1 : argv2[1]? = some "wg-show") (k4 : 4 ≤ argv2.length) :
    main sys argv = main sys argv2 := by
  by_cases g1 : (sys.setgroups []).ret = 0
  swap
  · rw [main_setgroups_fail sys argv (by omega) g1, main_setgroups_fail sys argv2 (by omega) g1]
  by_cases g2 : (sys.setgid 0).ret = 0
  swap
  · rw [main_setgid_fail sys argv (by omega) g1 g2, main_setgid_fail sys argv2 (by omega) g1 g2]
  by_cases g3 : (sys.setuid 0).ret = 0
  swap
  · rw [main_setuid_fail sys argv (by omega) g1 g2 g3,
      main_setuid_fail sys argv2 (by omega) g1 g2 g3]
  rw [main_dispatch sys argv (by omega) g1 g2 g3, main_dispatch sys argv2 (by omega) g1 g2 g3,
    dispatch_show_bad sys argv (by omega) h1 (by omega) (by omega),
    dispatch_show_bad sys argv2 (by omega) k1 (by omega) (by omega)]

/-- C14. No bound or shape check on the interface argument: for every string `s`, with the
identity calls succeeding, the runs on `p wg-show s`, `p wg-quick-up s` and
`p wg-quick-down s` attempt `execl` with `s` unchanged as the last argument; and the run on
`wg-show` with 4 or more arguments is the same for every such argument vector, so one with
more than `MAX_ARGS` arguments is rejected exactly like one with 4. -/
theorem interface_argument_unchecked (sys : Sys) (p s : String) :
    (identityOk sys →
      execs (main sys [p, "wg-show", s]).trace =
        [("/opt/homebrew/bin/wg", ["wg", "show", s])] ∧
      execs (main sys [p, "wg-quick-up", s]).trace =
        [("/opt/homebrew/bin/wg-quick", ["wg-quick", "up", s])] ∧
      execs (main sys [p, "wg-quick-down", s]).trace =
        [("/opt/homebrew/bin/wg-quick", ["wg-quick", "down", s])]) ∧
    (∀ argv argv2 : List String, argv[1]? = some "wg-show" → argv2[1]? = some "wg-show" →
      4 ≤ argv.length → 4 ≤ argv2.length → main sys argv = main sys argv2) ∧
    (∀ argv argv2 : List String, argv[1]? = some "wg-show" → argv2[1]? = some "wg-show" →
      MAX_ARGS < argv.length → argv2.length = 4 → main sys argv = main sys argv2) := by
  refine ⟨fun hid => ?_, fun argv argv2 h1 k1 h4 k4 => main_show_over_arity_eq sys argv argv2
    h1 h4 k1 k4, fun argv argv2 h1 k1 h4 k4 => main_show_over_arity_eq sys argv argv2 h1
    (by simp only [MAX_ARGS] at h4; omega) k1 (by omega)⟩
  obtain ⟨g1, g2, g3⟩ := hid
  refine ⟨?_, ?_, ?_⟩
  · rw [main_dispatch sys _ (by simp) g1 g2 g3,
      dispatch_show3 sys _ (by simp) (by simp) (by simp) s (by simp)]
    simp only [trace_after, execs_append, execs_execlOrFail]
    simp [execs, Event.exec?]
  · rw [main_dispatch sys _ (by simp) g1 g2 g3,
      dispatch_up sys _ (by simp) (by simp) (by simp) s (by simp)]
    simp only [trace_after, execs_append, execs_execlOrFail]
    simp [execs, Event.exec?]
  · rw [main_dispatch sys _ (by simp) g1 g2 g3,
      dispatch_down sys _ (by simp) (by simp) (by simp) s (by simp)]
    simp only [trace_after, execs_append, execs_execlOrFail]
    simp [execs, Event.exec?]

/-- C14 at an interface argument of 300 dashes (longer than `MAX_ARG_LEN`). -/
theorem interface_argument_unchecked_witness :
    MAX_ARG_LEN < (String.mk (List.replicate 300 '-')).length ∧ identityOk sysOk ∧
    execs (main sysOk ["prog", "wg-quick-up", String.mk (List.replicate 300 '-')]).trace =
      [("/opt/homebrew/bin/wg-quick",
        ["wg-quick", "up", String.mk (List.replicate 300 '-')])] :=
  ⟨by show MAX_ARG_LEN < (List.replicate 300 '-').length; rw [List.length_replicate]; decide,
    by decide,
    ((interface_argument_unchecked sysOk "prog" (String.mk (List.replicate 300 '-'))).1
      (by decide)).2.1⟩

theorem reads_append (s t : List Event) : reads (s ++ t) = reads s ++ reads t := by
  simp [reads]

theorem reads_execlOrFail (sys : Sys) (p : String) (a : List String) :
    reads (execlOrFail sys p a).trace = [] := by
  unfold execlOrFail
  split <;> simp [reads, Event.read?]

/-- Function `main` looks at the argument count and at the first three arguments only. -/
theorem main_congr_take3 (sys : Sys) (argv argv2 : List String)
    (hl : argv2.length = argv.length) (ht : argv2.take 3 = argv.take 3) :
    main sys argv2 = main sys argv := by
  by_cases hle : argv.length ≤ 3
  · rw [List.take_of_length_le hle, List.take_of_length_le (by omega)] at ht
    rw [ht]
  have h0 : argv2[0]? = argv[0]? := by
    have := congrArg (fun l => l[0]?) ht
    simpa [List.getElem?_take] using this
  have h1 : argv2[1]? = argv[1]? := by
    have := congrArg (fun l => l[1]?) ht
    simpa [List.getElem?_take] using this
  have e1 : argv[1]? = some argv[1] := List.getElem?_eq_getElem _
  by_cases g1 : (sys.setgroups []).ret = 0
  swap
  · rw [main_setgroups_fail sys argv (by omega) g1, main_setgroups_fail sys argv2 (by omega) g1]
  by_cases g2 : (sys.setgid 0).ret = 0
  swap
  · rw [main_setgid_fail sys argv (by omega) g1 g2, main_setgid_fail sys argv2 (by omega) g1 g2]
  by_cases g3 : (sys.setuid 0).ret = 0
  swap
  · rw [main_setuid_fail sys argv (by omega) g1 g2 g3,
      main_setuid_fail sys argv2 (by omega) g1 g2 g3]
  rw [main_dispatch sys argv (by omega) g1 g2 g3, main_dispatch sys argv2 (by omega) g1 g2 g3]
  congr 1
  by_cases hs : argv[1] = "wg-show"
  · rw [hs] at e1
    rw [dispatch_show_bad sys argv (by omega) e1 (by omega) (by omega),
      dispatch_show_bad sys argv2 (by omega) (h1.trans e1) (by omega) (by omega)]
  by_cases hu : argv[1] = "wg-quick-up"
  · rw [hu] at e1
    rw [dispatch_up_bad sys argv (by omega) e1 (by omega),
      dispatch_up_bad sys argv2 (by omega) (h1.trans e1) (by omega), h0]
  by_cases hd : argv[1] = "wg-quick-down"
  · rw [hd] at e1
    rw [dispatch_down_bad sys argv (by omega) e1 (by omega),
      dispatch_down_bad sys argv2 (by omega) (h1.trans e1) (by omega), h0]
  rw [dispatch_unknown sys argv (by omega) argv[1] e1 hs hu hd,
    dispatch_unknown sys argv2 (by omega) argv[1] (h1.trans e1) hs hu hd]

/-- C15. In-bounds argument access: with at least 1 argument, every index of `argv` that
`main` reads is below the argument count and below 3; `argv[1]` is read only when there are
at least 2 arguments and `argv[2]` only when there are exactly 3; each read of `argv[0]` is
directly followed by the `fprintf` of a usage message that names it; and two argument
vectors of the same length that agree on their first three entries give the same run. -/
theorem argv_access_in_bounds (sys : Sys) (argv : List String) (h : 1 ≤ argv.length) :
    (∀ i ∈ reads (main sys argv).trace, i < argv.length ∧ i < 3) ∧
    (1 ∈ reads (main sys argv).trace → 2 ≤ argv.length) ∧
    (2 ∈ reads (main sys argv).trace → argv.length = 3) ∧
    (∀ e, (Event.argv 0, e) ∈ (main sys argv).trace.zip (main sys argv).trace.tail →
      ∃ m, e = .fprintf ("Usage: " ++ argv[0] ++ m)) ∧
    (main sys argv).trace.getLast? ≠ some (.argv 0) ∧
    (∀ argv2 : List String, argv2.length = argv.length → argv2.take 3 = argv.take 3 →
      main sys argv2 = main sys argv) := by
  have e0' : argv[0]? = some argv[0] := List.getElem?_eq_getElem _
  refine ⟨?_, ?_, ?_, ?_, ?_, fun argv2 hl ht => main_congr_take3 sys argv argv2 hl ht⟩
  all_goals
    rcases main_cases sys argv with ⟨hl, e⟩ | ⟨hl, h1, e⟩ | ⟨hl, h1, h2, e⟩ |
      ⟨hl, h1, h2, h3, e⟩ | ⟨hid, a0, a1, e0, e1, hd⟩
  all_goals try (rw [e]; simp [reads, Event.read?, e0', fmtS]; done)
  all_goals try (rw [e]; simp [reads, Event.read?, e0', fmtS]; omega)
  all_goals
    rcases hd with ⟨hs, hc, e⟩ | ⟨hs, hc, a2, e2, e⟩ | ⟨hs, hc, e⟩ | ⟨hs, hc, a2, e2, e⟩ |
      ⟨hs, hc, hn, e⟩ | ⟨hs, hc, a2, e2, e⟩ | ⟨hs, hc, hn, e⟩ | ⟨hs, hu, hd, hc, e⟩
  all_goals rw [e0'] at e0
  all_goals cases e0
  all_goals rw [e]
  all_goals simp only [trace_after, reads_append, reads_execlOrFail]
  all_goals try (simp [reads, Event.read?]; done)
  all_goals try (simp [reads, Event.read?]; omega)
  all_goals unfold execlOrFail
  all_goals split <;> simp

/-- C15 at `prog wg-quick-up`: the run reads `argv[1]` and `argv[0]` only. -/
theorem argv_access_in_bounds_witness :
    1 ≤ ["prog", "wg-quick-up"].length ∧
    reads (main sysOk ["prog", "wg-quick-up"]).trace = [1, 1, 0] ∧
    (∀ i ∈ reads (main sysOk ["prog", "wg-quick-up"]).trace,
      i < ["prog", "wg-quick-up"].length ∧ i < 3) :=
  ⟨by decide, by decide, (argv_access_in_bounds sysOk ["prog", "wg-quick-up"] (by decide)).1⟩

end WgWrapper
